import Mathlib

/-!
# Verification of the skyware labeler core

A shallow embedding, in Lean, of the label pipeline of the `@skyware/labeler`
service: the label codec (`src/util/labels.ts`), the write path
(`LabelerServer.saveLabel` / `createLabel` / `createLabels`), the
`queryLabels` endpoint (parameter parsing, uri-pattern normalization and the
generated SQL `WHERE` clause), the `subscribeLabels` WebSocket handler, the
JWT verification control flow (`src/util/crypto.ts` `verifyJwt`) and the
multikey parser (`parseMultikey`).

Conventions of the embedding:
* Byte strings (`Uint8Array`) are `List Nat`.
* JS `undefined` / missing object keys are `Option.none`; `excludeNullish`
  drops `none` entries.
* The SQLite table is a `DBState`: a list of rows in insertion order plus
  the next `AUTOINCREMENT` rowid (ids start at 1 and are never reused).
* Elliptic-curve signing (the `@noble/curves` library, external to the
  repository) is abstracted as a `SigScheme`: an executable signing scheme
  carrying a proof that honestly produced signatures verify.
* The deterministic CBOR encoder (`@atcute/cbor`, external to the
  repository) is modelled by `cborEncode`, an executable, deterministic,
  unambiguous serialization of the signable field map.  The claims proved
  here depend only on the encoder being a function of the field map.
-/

namespace Skyware

/-- Values that can appear in the signable (CBOR) form of a label.
There is deliberately no `null` constructor: the encoder of the source never
emits nulls, and `excludeNullish` drops absent fields before encoding. -/
inductive FieldVal where
  | str (s : String)
  | int (n : Int)
  | boolv (b : Bool)
  | bytes (bs : List Nat)
deriving DecidableEq, Repr

/-- An unsigned label, mirroring `UnsignedLabel` of `src/util/types.ts`
(`ComAtprotoLabelDefs.Label` without `sig`): `cid`, `exp` and `neg` are
optional; `ver` is not stored, it is added by the codec. -/
structure UnsignedLabel where
  src : String
  uri : String
  cid : Option String
  val : String
  neg : Option Bool
  cts : String
  exp : Option String
deriving DecidableEq, Repr

/-- A label together with an optional raw signature, mirroring the runtime
shape accepted by `toSignedLabel` (`sig` present or absent). -/
structure LabelInput extends UnsignedLabel where
  sig : Option (List Nat)
deriving DecidableEq, Repr

/-- A signed label: an `UnsignedLabel` plus a raw signature
(`SignedLabel = UnsignedLabel & { sig: Uint8Array }`). -/
structure SignedLabel extends UnsignedLabel where
  sig : List Nat
deriving DecidableEq, Repr

/-- Model of `excludeNullish` of `src/util/util.ts`, at the level of field maps:
entries whose value is nullish (`none`) are dropped, all others kept. -/
def excludeNullish (fs : List (String × Option FieldVal)) : List (String × FieldVal) :=
  fs.filterMap fun kv => kv.2.map (fun v => (kv.1, v))

/-- Model of `formatLabelCbor` of `src/util/labels.ts`:
`excludeNullish({ ...label, ver: LABEL_VERSION, neg: !!label.neg })`.
The result is the signable field map.  `ver` is always `1`; `neg` is always
present, coerced to a boolean (`!!label.neg`, i.e. `false` when absent);
absent `cid` / `exp` are dropped by `excludeNullish` (not encoded as null).
The deterministic CBOR encoder sorts map keys, so the JS object insertion
order is immaterial; fields are listed here in declaration order. -/
def formatLabelCbor (l : UnsignedLabel) : List (String × FieldVal) :=
  excludeNullish
    [("src", some (.str l.src)),
     ("uri", some (.str l.uri)),
     ("cid", l.cid.map .str),
     ("val", some (.str l.val)),
     ("cts", some (.str l.cts)),
     ("exp", l.exp.map .str),
     ("ver", some (.int 1)),
     ("neg", some (.boolv (l.neg.getD false)))]

/-- The struct-level counterpart of `formatLabelCbor`: the formatted label
object `{ ...label, neg: !!label.neg }` whose fields are spread into the
signed label returned by `signLabel`. -/
def formatLabelStruct (l : UnsignedLabel) : UnsignedLabel :=
  { l with neg := some (l.neg.getD false) }

/-- Length-prefixed byte serialization of a string (for `cborEncode`). -/
def encStr (s : String) : List Nat :=
  s.length :: s.data.map Char.toNat

/-- Serialization of one field value (for `cborEncode`). -/
def encFieldVal : FieldVal → List Nat
  | .str s => 0 :: encStr s
  | .int n => 1 :: [n.natAbs]
  | .boolv b => [2, cond b 1 0]
  | .bytes bs => 3 :: bs.length :: bs

/-- Model of the deterministic CBOR encoder (`encode` of `@atcute/cbor`,
a library external to this repository): a deterministic, executable
serialization of the signable field map.  The development only relies on
`cborEncode` being a function — the same field map always yields the same
bytes — never on the concrete byte layout. -/
def cborEncode (m : List (String × FieldVal)) : List Nat :=
  m.foldr (fun kv acc => encStr kv.1 ++ encFieldVal kv.2 ++ acc) []

/-- An executable signature scheme, abstracting secp256k1 (`k256Sign` /
`verify` of `@noble/curves`, external to the repository).  `correct` states
that a signature produced with a private key verifies under the derived
public key — the defining property of the real scheme that the signing
claims rely on. -/
structure SigScheme where
  sign : List Nat → List Nat → List Nat
  pub : List Nat → List Nat
  verify : List Nat → List Nat → List Nat → Bool
  correct : ∀ k m, verify (pub k) m (sign k m) = true

/-- A toy instance of `SigScheme` used to evaluate the embedding on
concrete inputs: the "signature" is the private key prepended to the
message, and verification recomputes it. -/
def toyScheme : SigScheme where
  sign k m := k ++ m
  pub k := k
  verify p m s := s == p ++ m
  correct := by intro k m; simp

/-- Model of `signLabel` of `src/util/labels.ts`: format the label, encode the
signable form, sign the bytes with the configured private key, and attach
the raw signature to the formatted label. -/
def signLabel (S : SigScheme) (signingKey : List Nat) (l : UnsignedLabel) : SignedLabel :=
  { formatLabelStruct l with
    sig := S.sign signingKey (cborEncode (formatLabelCbor l)) }

/-- Model of `toSignedLabel` of `src/util/labels.ts`: if the incoming label already
carries a `sig`, keep it as-is — it is neither re-signed nor verified;
otherwise sign the label with the configured key. -/
def toSignedLabel (S : SigScheme) (signingKey : List Nat) (l : LabelInput) : SignedLabel :=
  match l.sig with
  | some signature => { l.toUnsignedLabel with sig := signature }
  | none => signLabel S signingKey l.toUnsignedLabel

/-! ## The label store and the write path (`LabelerServer`) -/

/-- A stored label row of the `labels` table
(`id INTEGER PRIMARY KEY AUTOINCREMENT, src, uri, cid, val, neg, cts, exp, sig`).
`neg` is stored as the integer `neg ? 1 : 0`, modelled as a `Bool`. -/
structure Row where
  id : Nat
  src : String
  uri : String
  cid : Option String
  val : String
  neg : Bool
  cts : String
  exp : Option String
  sig : List Nat
deriving DecidableEq, Repr

/-- The state of the SQLite `labels` table: rows in insertion order and the
next `AUTOINCREMENT` rowid (strictly greater than every id ever assigned;
SQLite starts at 1). -/
structure DBState where
  rows : List Row
  nextId : Nat
deriving DecidableEq, Repr

/-- A freshly created database. -/
def dbEmpty : DBState := ⟨[], 1⟩

/-- JS `x || null` on an optional string: the empty string is falsy and is
coerced to null.  Used for the `cid || null` / `exp || null` insert
arguments of `saveLabel`. -/
def orNull (o : Option String) : Option String :=
  match o with
  | some "" => none
  | x => x

/-- The row inserted for a signed label
(`INSERT INTO labels (src, uri, cid, val, neg, cts, exp, sig) VALUES …` with
arguments `[src, uri, cid || null, val, neg ? 1 : 0, cts, exp || null, sig]`). -/
def rowOfSigned (id : Nat) (s : SignedLabel) : Row :=
  { id := id, src := s.src, uri := s.uri, cid := orNull s.cid, val := s.val,
    neg := s.neg.getD false, cts := s.cts, exp := orNull s.exp, sig := s.sig }

/-- The environment of the write path: which inserts fail.  `failsAt n`
says the insert that would be assigned rowid `n` fails (the database throws
or reports no inserted row, `if (!result.rows.length) throw …`). -/
structure DBEnv where
  failsAt : Nat → Bool

/-- The environment in which every insert succeeds. -/
def envOk : DBEnv := ⟨fun _ => false⟩

/-- A message emitted to subscribers by `emitLabel(seq, label)`:
the frame carries `{ seq, labels: [formatted label] }`. -/
structure EmitRec where
  seq : Nat
  label : SignedLabel
deriving DecidableEq, Repr

/-- Model of `LabelerServer.saveLabel`: sign the label if it does not already carry a
signature (`toSignedLabel`), insert it, emit it to subscribers, and return
the stored label with its assigned id.  On insert failure the error
propagates and nothing is stored or emitted. -/
def saveLabel (S : SigScheme) (env : DBEnv) (signingKey : List Nat)
    (st : DBState) (l : LabelInput) : Except Unit (DBState × EmitRec × Row) :=
  let signed := toSignedLabel S signingKey l
  if env.failsAt st.nextId then .error () else
  let id := st.nextId
  let row := rowOfSigned id signed
  .ok ({ rows := st.rows ++ [row], nextId := st.nextId + 1 },
       { seq := id, label := signed }, row)

/-- The data accepted by `createLabel` (`CreateLabelData`).  The TS type has
no `sig` member, but the runtime object is spread unchanged into the label,
so a caller-supplied `sig` property flows through `excludeNullish` and
`toSignedLabel` untouched; the embedding therefore keeps an optional `sig`. -/
structure CreateLabelData where
  val : String
  uri : String
  cid : Option String := none
  neg : Option Bool := none
  src : Option String := none
  cts : Option String := none
  exp : Option String := none
  sig : Option (List Nat) := none
deriving DecidableEq, Repr

/-- Model of `LabelerServer.createLabel`: default `src` to the labeler DID and `cts`
to the current time, strip nullish fields (`excludeNullish`, the identity in
the `Option` representation), and save.  `now` is the ISO-8601 timestamp the
server would produce. -/
def createLabel (S : SigScheme) (env : DBEnv) (signingKey : List Nat)
    (did now : String) (st : DBState) (d : CreateLabelData) :
    Except Unit (DBState × EmitRec × Row) :=
  saveLabel S env signingKey st
    { src := d.src.getD did, uri := d.uri, cid := d.cid, val := d.val,
      neg := d.neg, cts := d.cts.getD now, exp := d.exp, sig := d.sig }

/-- The subject passed to `createLabels`: a uri plus an optional cid. -/
structure LabelSubject where
  uri : String
  cid : Option String := none
deriving DecidableEq, Repr

/-- The sequence of label drafts `createLabels` produces from its `create`
and `negate` lists: every `create` value first (no `neg`), then every
`negate` value (`neg: true`). -/
def createLabelsVals (create negate : Option (List String)) : List (String × Bool) :=
  (create.getD []).map (fun v => (v, false)) ++ (negate.getD []).map (fun v => (v, true))

/-- The body of the `createLabels` loops: insert one label per value, in
order, accumulating emissions; on the first failure stop, keeping what was
already inserted and emitted, and propagate the error. -/
def createMany (S : SigScheme) (env : DBEnv) (signingKey : List Nat)
    (did now : String) (subj : LabelSubject) :
    DBState → List (String × Bool) → DBState × List EmitRec × Except Unit (List Row)
  | st, [] => (st, [], .ok [])
  | st, (v, n) :: rest =>
    match createLabel S env signingKey did now st
        { uri := subj.uri, cid := subj.cid, val := v,
          neg := if n then some true else none } with
    | .error () => (st, [], .error ())
    | .ok (st1, e, r) =>
      let (st2, es, res) := createMany S env signingKey did now subj st1 rest
      (st2, e :: es, res.map (fun rs => r :: rs))

/-- Model of `LabelerServer.createLabels`: for each `create` value insert a
non-negating label, then for each `negate` value a negating one, each via
`createLabel`; the result is the final table state, the emissions made, and
either the created rows or the propagated error of the first failed insert. -/
def createLabels (S : SigScheme) (env : DBEnv) (signingKey : List Nat)
    (did now : String) (st : DBState) (subj : LabelSubject)
    (create negate : Option (List String)) :
    DBState × List EmitRec × Except Unit (List Row) :=
  createMany S env signingKey did now subj st (createLabelsVals create negate)

/-! ## The `queryLabels` endpoint -/

/-- Error kinds surfaced by the handlers, with the source's messages. -/
inductive XrpcErr where
  | invalidRequest (msg : String)
deriving DecidableEq, Repr

/-- The numeric value of a digit string (for `parseIntJS`). -/
def digitsVal (ds : List Char) : Nat :=
  ds.foldl (fun a c => a * 10 + (c.toNat - 48)) 0

/-- The leading-digit prefix of a character list as a number, `none` when
there is no leading digit (for `parseIntJS`). -/
def parseIntCore (cs : List Char) : Option Nat :=
  let ds := cs.takeWhile Char.isDigit
  if ds.isEmpty then none else some (digitsVal ds)

/-- JavaScript `parseInt(s, 10)`: skip leading whitespace, accept an
optional sign, read the longest leading digit sequence and ignore the rest
of the string; `NaN` (here `none`) when no digit follows the sign. -/
def parseIntJS (s : String) : Option Int :=
  match s.data.dropWhile Char.isWhitespace with
  | '-' :: rest => (parseIntCore rest).map (fun n => -(n : Int))
  | '+' :: rest => (parseIntCore rest).map (fun n => (n : Int))
  | rest => (parseIntCore rest).map (fun n => (n : Int))

/-- JS `` `${q || d}` `` on a query-string value: an absent parameter or an
empty string falls back to the default, anything else is kept verbatim. -/
def strOrDefault (q : Option String) (d : String) : String :=
  match q with
  | none => d
  | some s => if s = "" then d else s

/-- SQLite `LIKE` matching (no `ESCAPE` clause; SQLite itself is a library
external to the repository, modelled here after its documented semantics):
`%` matches any — possibly empty — character sequence, `_` matches exactly
one character, every other character — including backslash — matches
itself; comparison is case-insensitive (SQLite folds ASCII only; the model
folds with `Char.toLower`, which agrees on the ASCII inputs used here).
The `%` case tries every suffix of the remaining subject (`List.tails`),
keeping the recursion structural on the pattern. -/
def likeMatch : List Char → List Char → Bool
  | [], s => s.isEmpty
  | p :: ps, s =>
    if p = '%' then s.tails.any (fun t => likeMatch ps t)
    else if p = '_' then
      match s with
      | [] => false
      | _ :: cs => likeMatch ps cs
    else
      match s with
      | [] => false
      | c :: cs => (p.toLower == c.toLower) && likeMatch ps cs

/-- The `LIKE` match on strings. -/
def likeB (pat s : String) : Bool := likeMatch pat.data s.data

/-- The pattern rewrite of `queryLabelsHandler`:
`pattern.replaceAll(/%/g, "").replaceAll(/_/g, "\\_")` — user-supplied `%`
is deleted and `_` is replaced by the two characters `\_`.  (No `ESCAPE`
clause accompanies the generated `LIKE`, so `\` is a literal character for
SQLite.) -/
def escapePattern (p : String) : String :=
  ⟨p.data.foldr
    (fun c acc => if c = '%' then acc else if c = '_' then '\\' :: '_' :: acc else c :: acc)
    []⟩

/-- Normalization of one uri pattern in `queryLabelsHandler`: rewrite `%`
and `_`, then find the first `*`; no star means the pattern is used as-is, a
star anywhere but the last position is an `InvalidRequest`, and a trailing
star is replaced by the `LIKE` wildcard `%`. -/
def normalizeOne (p0 : String) : Except XrpcErr String :=
  match (escapePattern p0).data.findIdx? (fun c => c = '*') with
  | none => .ok (escapePattern p0)
  | some i =>
    if i ≠ (escapePattern p0).data.length - 1 then
      .error (.invalidRequest "Only trailing wildcards are supported in uriPatterns")
    else .ok ⟨(escapePattern p0).data.dropLast ++ ['%']⟩

/-- Normalization of the whole `uriPatterns` list:
`uriPatterns.includes("*") ? [] : uriPatterns.map(…)` — if any pattern is
exactly `*` the list collapses to no filter at all (and no pattern is
validated); otherwise each pattern is normalized, the first bad one
aborting with its error. -/
def normalizePatterns (ups : List String) : Except XrpcErr (List String) :=
  if ups.contains "*" then .ok [] else ups.mapM normalizeOne

/-- Model of `ORDER BY id ASC`. -/
def sortById (rows : List Row) : List Row :=
  rows.insertionSort (fun a b => a.id ≤ b.id)

/-- The `src IN (…)` and `id > ?` conjuncts shared by both generated `WHERE`
clauses: each is appended only when its input is non-empty / the cursor is
truthy (non-zero). -/
def condSC (sources : List String) (cursor : Int) (r : Row) : Bool :=
  (sources.isEmpty || sources.contains r.src) && (cursor == 0 || (r.id : Int) > cursor)

/-- Evaluation of the *parenthesized* pattern condition of the newer
`queryLabelsHandler`, which pushes
`"(" + patterns.map(() => "uri LIKE ?").join(" OR ") + ")"` onto a
condition list joined with `AND`: the row must match at least one pattern,
and the other conditions apply to every row. -/
def conjMatch (patterns sources : List String) (cursor : Int) (r : Row) : Bool :=
  (patterns.isEmpty || patterns.any (fun p => likeB p r.uri)) && condSC sources cursor r

/-- Evaluation of the *unparenthesized* SQL of `findLabels`
(`src/util/sqlite.ts`) and of the older `queryLabelsHandler`:
the generated text is
`WHERE 1 = 1 AND L1 OR L2 … OR Ln AND src IN (…) AND id > ?`.
`AND` binds tighter than `OR` in SQLite, so the `OR`-operands are
`(1=1 AND L1)`, `L2`, …, `L(n-1)`, and `(Ln AND src-cond AND id-cond)`:
the source and cursor conditions attach only to the final pattern's
disjunct.  With no patterns the clause is purely conjunctive. -/
def brokenOrChain (patterns : List String) (base : Row → Bool) (r : Row) : Bool :=
  match patterns with
  | [] => base r
  | [p] => likeB p r.uri && base r
  | p :: q :: ps => likeB p r.uri || brokenOrChain (q :: ps) base r

/-- The full row filter of the unparenthesized SQL. -/
def brokenMatch (patterns sources : List String) (cursor : Int) (r : Row) : Bool :=
  brokenOrChain patterns (condSC sources cursor) r

/-- Model of `findLabels` of `src/util/sqlite.ts` (same SQL as the older
`queryLabelsHandler`): filter with the unparenthesized `WHERE` clause,
order by ascending id, apply `LIMIT`. -/
def findLabelsSem (st : DBState) (patterns sources : List String) (cursor : Int)
    (limit : Nat) : List Row :=
  ((sortById st.rows).filter (brokenMatch patterns sources cursor)).take limit

/-- The newer `queryLabelsHandler`'s SELECT (`conditions` joined with `AND`,
patterns parenthesized): filter, order by ascending id, apply `LIMIT`. -/
def whereClauseSem (st : DBState) (patterns sources : List String) (cursor : Int)
    (limit : Nat) : List Row :=
  ((sortById st.rows).filter (conjMatch patterns sources cursor)).take limit

/-- The response cursor: `rows[rows.length - 1]?.id?.toString(10) || "0"`. -/
def nextCursorStr (rows : List Row) : String :=
  match rows.getLast? with
  | none => "0"
  | some r => toString r.id

/-- The `queryLabels` handler: parse `cursor` (default `"0"`, `NaN` is an
`InvalidRequest`), parse `limit` (default `"50"`, `NaN` or a value outside
`[1, 250]` is an `InvalidRequest`), normalize the uri patterns, run the
SELECT and return the rows with the next cursor.  `uriPatterns` and
`sources` arrive already coerced to (possibly empty) lists. -/
def queryLabelsHandler (st : DBState) (uriPatterns sources : List String)
    (cursorQ limitQ : Option String) : Except XrpcErr (String × List Row) :=
  match parseIntJS (strOrDefault cursorQ "0") with
  | none => .error (.invalidRequest "Cursor must be an integer")
  | some cursor =>
  match parseIntJS (strOrDefault limitQ "50") with
  | none => .error (.invalidRequest "Limit must be an integer between 1 and 250")
  | some limit =>
  if limit < 1 || limit > 250 then
    .error (.invalidRequest "Limit must be an integer between 1 and 250")
  else
    (normalizePatterns uriPatterns).map fun patterns =>
      let rows := whereClauseSem st patterns sources cursor limit.toNat
      (nextCursorStr rows, rows)

/-! ## The `subscribeLabels` WebSocket handler -/

/-- A frame sent on the WebSocket, at the structural level (`frameToBytes`
serializes the header/body pair to CBOR; the claims only count frames and
inspect their kind and payload, so the byte serialization is not modelled). -/
inductive Frame where
  | err (error msg : String)
  | labelsMsg (seq : Nat) (r : Row)
deriving DecidableEq, Repr

/-- The framed `FutureCursor` error. -/
def futureCursorFrame : Frame := .err "FutureCursor" "Cursor is in the future"

/-- What the `subscribeLabels` handler did to one connection: the frames it
sent (in order), whether it called `ws.terminate()`, and whether it added
the socket to the live subscriber set (`addSubscription`). -/
structure SubOutcome where
  frames : List Frame
  terminated : Bool
  registered : Bool
deriving DecidableEq, Repr

/-- Model of `SELECT MAX(id) FROM labels`, with `Number(null) = 0` for the empty
table. -/
def maxId (st : DBState) : Nat :=
  (st.rows.map Row.id).foldr max 0

/-- The `subscribeLabels` handler, on a database read that succeeds (the
`InternalServerError` path for a failing scan is not modelled):
parse `cursor ?? "NaN"`; a non-numeric cursor skips replay entirely.  For a
numeric cursor greater than `MAX(id)` the handler sends a framed
`FutureCursor` error and terminates the socket — but does *not* return: it
still runs the replay scan (`id > cursor`, empty in that case) and still
falls through to `addSubscription`, so even a future-cursor subscriber is
registered in the live set. -/
def subscribeLabelsHandler (st : DBState) (cursorQ : Option String) : SubOutcome :=
  match parseIntJS (cursorQ.getD "NaN") with
  | none => ⟨[], false, true⟩
  | some c =>
    let future := c > (maxId st : Int)
    let pre : List Frame := if future then [futureCursorFrame] else []
    let msgs := ((sortById st.rows).filter (fun r => (r.id : Int) > c)).map
      (fun r => Frame.labelsMsg r.id r)
    ⟨pre ++ msgs, future, true⟩

/-! ## JWT verification (`src/util/crypto.ts`) -/

/-- The outcomes of `verifyJwt`: the `XRPCError` kinds it throws, plus
`resolveError` for the plain `Error` a failing `resolveDidToSigningKey`
lets propagate uncaught (it is *not* converted to `BadJwtSignature`). -/
inductive VerifyErr where
  | badJwt
  | jwtExpired
  | badJwtAudience
  | badJwtLexiconMethod
  | badJwtSignature
  | resolveError
deriving DecidableEq, Repr

/-- A parsed JWT payload (`parsePayload`). -/
structure JwtPayload where
  iss : String
  aud : String
  exp : Int
  lxm : Option String
  nonce : Option String
deriving DecidableEq, Repr

/-- The JWT as it reaches `verifyJwt`: how many `.`-separated parts the
compact string has, and the payload if `parsePayload` accepts it. -/
structure JwtInput where
  numParts : Nat
  payload : Option JwtPayload
deriving DecidableEq, Repr

deriving instance DecidableEq for Except

/-- The result of a `verifyJwt` run, instrumented with the oracle calls it
made: each `resolveDidToSigningKey(iss, forceRefresh)` call records its
`forceRefresh` flag, each `verifySignatureWithKey(key, …)` call records the
key it was given. -/
structure JwtTrace where
  result : Except VerifyErr JwtPayload
  resolveCalls : List Bool
  verifyCalls : List String
deriving DecidableEq, Repr

/-- The check `payload.aud !== ownDid` guarded by `ownDid !== null`. -/
def audBad (ownDid : Option String) (p : JwtPayload) : Bool :=
  match ownDid with
  | none => false
  | some d => p.aud != d

/-- The check `payload.lxm !== lxm` guarded by `lxm !== null` (a missing `payload.lxm`
also mismatches). -/
def lxmBad (lxm : Option String) (p : JwtPayload) : Bool :=
  match lxm with
  | none => false
  | some l => p.lxm != some l

/-- Model of `verifyJwt`: structural check, expiry, audience, lexicon method, then
signature verification against the cached key (`resolve false`); when that
verification *returns* false, the key is re-resolved with a forced refresh
(`resolve true`) and verification retried exactly once, and only when the
refreshed key differs; a verification that *throws* fails `BadJwtSignature`
immediately.  `resolve` and `verifySig` abstract DID resolution and ECDSA
verification (network and elliptic-curve math external to this file);
`verifySig` is keyed by the resolved signing key, the message being fixed
for one run. -/
def verifyJwt (resolve : Bool → Except Unit String)
    (verifySig : String → Except Unit Bool) (now : Int)
    (ownDid lxm : Option String) (jwt : JwtInput) : JwtTrace :=
  if jwt.numParts ≠ 3 then ⟨.error .badJwt, [], []⟩ else
  match jwt.payload with
  | none => ⟨.error .badJwt, [], []⟩
  | some payload =>
  if now > payload.exp then ⟨.error .jwtExpired, [], []⟩ else
  if audBad ownDid payload then ⟨.error .badJwtAudience, [], []⟩ else
  if lxmBad lxm payload then ⟨.error .badJwtLexiconMethod, [], []⟩ else
  match resolve false with
  | .error _ => ⟨.error .resolveError, [false], []⟩
  | .ok signingKey =>
    match verifySig signingKey with
    | .error _ => ⟨.error .badJwtSignature, [false], [signingKey]⟩
    | .ok true => ⟨.ok payload, [false], [signingKey]⟩
    | .ok false =>
      match resolve true with
      | .error _ => ⟨.error .resolveError, [false, true], [signingKey]⟩
      | .ok freshSigningKey =>
        if freshSigningKey ≠ signingKey then
          match verifySig freshSigningKey with
          | .error _ =>
            ⟨.error .badJwtSignature, [false, true], [signingKey, freshSigningKey]⟩
          | .ok true => ⟨.ok payload, [false, true], [signingKey, freshSigningKey]⟩
          | .ok false =>
            ⟨.error .badJwtSignature, [false, true], [signingKey, freshSigningKey]⟩
        else ⟨.error .badJwtSignature, [false, true], [signingKey]⟩

/-! ## Multikey parsing (`parseMultikey`) -/

/-- The constant `P256_DID_PREFIX = [0x80, 0x24]`. -/
def p256DidPfx : List Nat := [0x80, 0x24]

/-- The constant `SECP256K1_DID_PREFIX = [0xe7, 0x01]`. -/
def secp256k1DidPfx : List Nat := [0xe7, 0x01]

/-- Model of `hasPrefix`: `ui8.equals(prefix, bytes.subarray(0, prefix.byteLength))`. -/
def hasPrefixBytes (bytes pfx : List Nat) : Bool :=
  bytes.take pfx.length == pfx

/-- Model of `decompressPubkey`: rejects inputs that are not 33 bytes
(`"Incorrect compressed pubkey length"`).  The elliptic-curve point
decompression itself is `@noble/curves` math external to the repository and
is modelled as returning the compressed bytes; the claims settled here only
exercise the length check and the branches before it. -/
def decompressPubkey (compressed : List Nat) : Except String (List Nat) :=
  if compressed.length ≠ 33 then .error "Incorrect compressed pubkey length"
  else .ok compressed

/-- The byte-level core of `parseMultikey` (after the base58 multibase
decode): pick the curve by multicodec prefix, then decompress the bytes
after the prefix.  Two slips of the source are reproduced verbatim:
the second prefix test checks `P256_DID_PREFIX` again (so
`SECP256K1_DID_PREFIX` is never tested and no secp256k1 key is ever
recognized), and the slice offset is `keyCurve.length` — the length of the
*string* `"p256"` / `"k256"`, i.e. 4 — instead of the 2-byte multicodec
prefix length. -/
def parseMultikeyBytes (prefixedBytes : List Nat) : Except String (String × List Nat) :=
  let keyCurve : Option String :=
    if hasPrefixBytes prefixedBytes p256DidPfx then some "p256"
    else if hasPrefixBytes prefixedBytes p256DidPfx then some "k256"
    else none
  match keyCurve with
  | none => .error "Invalid curve for multikey"
  | some curve =>
    (decompressPubkey (prefixedBytes.drop curve.length)).map (fun kb => (curve, kb))

/-! ## Derived notions used by the statements -/

/-- Key lookup in a signable field map (first binding wins, as in a JS
object). -/
def fieldLookup (k : String) : List (String × FieldVal) → Option FieldVal
  | [] => none
  | (k1, v) :: rest => if k = k1 then some v else fieldLookup k rest

/-- Model of `SELECT * FROM labels WHERE id > ? ORDER BY id ASC` — the full scan used
by the subscription replay, and `scan(0)` the full table. -/
def scanSem (st : DBState) (after : Nat) : List Row :=
  (sortById st.rows).filter (fun r => after < r.id)

/-- The invariant of the `labels` table maintained by the write path:
ids are strictly increasing in insertion order, positive, and below the
next `AUTOINCREMENT` id (which is itself positive). -/
def dbInv (st : DBState) : Prop :=
  0 < st.nextId ∧
  st.rows.Pairwise (fun a b => a.id < b.id) ∧
  ∀ r ∈ st.rows, 0 < r.id ∧ r.id < st.nextId

/-- The label the query and subscription handlers rebuild from a stored
row (`neg: Boolean(row.neg)`, a NULL `cid`/`exp` left absent). -/
def rowToUnsigned (r : Row) : UnsignedLabel :=
  { src := r.src, uri := r.uri, cid := r.cid, val := r.val,
    neg := some r.neg, cts := r.cts, exp := r.exp }

/-- Signature round-trip check for a stored row: re-encode the signable
form of the label the endpoints rebuild from the row and verify the stored
signature under the public key derived from the configured private key. -/
def rowVerifies (S : SigScheme) (signingKey : List Nat) (r : Row) : Bool :=
  S.verify (S.pub signingKey) (cborEncode (formatLabelCbor (rowToUnsigned r))) r.sig

/-- The signed label `createLabels` produces for one value `(v, n)` of
`createLabelsVals` (`src` and `cts` defaulted, `neg` set only on negation,
signed with the configured key). -/
def expectedSigned (S : SigScheme) (signingKey : List Nat) (did now : String)
    (subj : LabelSubject) (vn : String × Bool) : SignedLabel :=
  signLabel S signingKey
    { src := did, uri := subj.uri, cid := subj.cid, val := vn.1,
      neg := if vn.2 then some true else none, cts := now, exp := none }

/-- The rows `createLabels` appends for a value list, starting at a given
`AUTOINCREMENT` id. -/
def expectedRows (S : SigScheme) (signingKey : List Nat) (did now : String)
    (subj : LabelSubject) : Nat → List (String × Bool) → List Row
  | _, [] => []
  | i, vn :: rest =>
    rowOfSigned i (expectedSigned S signingKey did now subj vn) ::
      expectedRows S signingKey did now subj (i + 1) rest

/-- The emissions `createLabels` makes for a value list, starting at a
given `AUTOINCREMENT` id. -/
def expectedEmits (S : SigScheme) (signingKey : List Nat) (did now : String)
    (subj : LabelSubject) : Nat → List (String × Bool) → List EmitRec
  | _, [] => []
  | i, vn :: rest =>
    ⟨i, expectedSigned S signingKey did now subj vn⟩ ::
      expectedEmits S signingKey did now subj (i + 1) rest

/-! ## Concrete inputs for witnesses and counterexamples -/

/-- A label draft with every optional field absent (in particular no
`neg`). -/
def exLabelNoNeg : UnsignedLabel :=
  { src := "did:plc:aaa", uri := "did:plc:bbb", cid := none, val := "spam",
    neg := none, cts := "2024-01-01T00:00:00.000Z", exp := none }

/-- A stored row whose uri starts with `a` but whose source is `s1`. -/
def exRowAx : Row :=
  { id := 1, src := "s1", uri := "ax", cid := none, val := "spam",
    neg := false, cts := "t", exp := none, sig := [] }

/-- A one-row table holding `exRowAx`. -/
def exStAx : DBState := { rows := [exRowAx], nextId := 2 }

/-- A stored row whose uri contains a literal `%`. -/
def exRowPct : Row :=
  { id := 1, src := "did:plc:aaa", uri := "50%", cid := none, val := "spam",
    neg := false, cts := "t", exp := none, sig := [] }

/-- A one-row table holding `exRowPct`. -/
def exStPct : DBState := { rows := [exRowPct], nextId := 2 }

/-- A label draft carrying a caller-supplied (bogus) signature. -/
def c1BadInput : LabelInput :=
  { src := "did:plc:aaa", uri := "did:plc:bbb", cid := none, val := "spam",
    neg := none, cts := "t", exp := none, sig := some [9] }

/-- The row `saveLabel` stores for `c1BadInput` (the bogus signature is
kept verbatim). -/
def c1BadRow : Row := rowOfSigned 1 (toSignedLabel toyScheme [1] c1BadInput)

/-- The table after saving `c1BadInput` into an empty database. -/
def c1BadSt : DBState := { rows := [c1BadRow], nextId := 2 }

/-- A resolver oracle for the `verifyJwt` witness: the cached key is
`"k1"`, the forced refresh returns `"k2"`. -/
def c8Resolve : Bool → Except Unit String :=
  fun b => .ok (if b then "k2" else "k1")

/-- A verification oracle for the `verifyJwt` witness: only `"k2"`
verifies. -/
def c8Verify : String → Except Unit Bool :=
  fun k => .ok (k == "k2")

/-- A JWT payload for the `verifyJwt` witness. -/
def c8Payload : JwtPayload :=
  { iss := "did:plc:iss", aud := "did:plc:me", exp := 100,
    lxm := some "tools.ozone.moderation.emitEvent", nonce := none }

/-- A structurally valid JWT carrying `c8Payload`. -/
def c8Jwt : JwtInput := { numParts := 3, payload := some c8Payload }

/-- An environment whose insert with rowid 2 fails. -/
def envFailAt2 : DBEnv := ⟨fun n => n == 2⟩

/-- A signature-less label input for the sequencing witness. -/
def c2Input : LabelInput := { toUnsignedLabel := exLabelNoNeg, sig := none }

/-- The first row stored for two sequential writes of `c2Input`. -/
def c2Row1 : Row := rowOfSigned 1 (toSignedLabel toyScheme [1] c2Input)

/-- The second row stored for two sequential writes of `c2Input`. -/
def c2Row2 : Row := rowOfSigned 2 (toSignedLabel toyScheme [1] c2Input)

/-- The table after the two sequential writes. -/
def c2St2 : DBState := ⟨[c2Row1, c2Row2], 3⟩

/-! # Theorems

Helper lemmas first, then one theorem per claim (with witnesses and
counterexamples where required). -/

theorem orNull_of_ne {o : Option String} (h : o ≠ some "") : orNull o = o := by
  unfold orNull
  split
  · exact absurd rfl h
  · rfl

theorem le_foldr_max_of_mem {ids : List Nat} {i : Nat} (h : i ∈ ids) :
    i ≤ ids.foldr max 0 := by
  induction ids with
  | nil => cases h
  | cons a t ih =>
    rcases List.mem_cons.mp h with rfl | ht
    · exact Nat.le_max_left _ _
    · exact le_trans (ih ht) (Nat.le_max_right _ _)

theorem id_le_maxId {st : DBState} {r : Row} (h : r ∈ st.rows) : r.id ≤ maxId st :=
  le_foldr_max_of_mem (List.mem_map_of_mem Row.id h)

theorem mem_sortById {rows : List Row} {r : Row} : r ∈ sortById rows ↔ r ∈ rows :=
  List.mem_insertionSort _

theorem sortById_eq_self {rows : List Row}
    (h : rows.Pairwise (fun a b => a.id < b.id)) : sortById rows = rows :=
  List.Sorted.insertionSort_eq (h.imp fun hab => le_of_lt hab)

theorem saveLabel_ok {S : SigScheme} {env : DBEnv} {key : List Nat} {st : DBState}
    {l : LabelInput} {st1 : DBState} {e : EmitRec} {r : Row}
    (h : saveLabel S env key st l = .ok (st1, e, r)) :
    env.failsAt st.nextId = false ∧
    r = rowOfSigned st.nextId (toSignedLabel S key l) ∧
    e = ⟨st.nextId, toSignedLabel S key l⟩ ∧
    st1 = ⟨st.rows ++ [r], st.nextId + 1⟩ := by
  unfold saveLabel at h
  by_cases hf : env.failsAt st.nextId
  · simp [hf] at h
  · simp only [Bool.not_eq_true] at hf
    simp [hf] at h
    obtain ⟨h1, h2, h3⟩ := h
    exact ⟨hf, h3.symm, h2.symm, by rw [← h1, ← h3]⟩

theorem dbInv_insert {st : DBState} {row : Row} (hInv : dbInv st)
    (hid : row.id = st.nextId) : dbInv ⟨st.rows ++ [row], st.nextId + 1⟩ := by
  obtain ⟨h0, hp, hb⟩ := hInv
  refine ⟨Nat.succ_pos _, ?_, ?_⟩
  · rw [List.pairwise_append]
    refine ⟨hp, List.pairwise_singleton _ _, ?_⟩
    intro a ha b hbm
    rcases List.mem_singleton.mp hbm with rfl
    rw [hid]
    exact (hb a ha).2
  · intro r hr
    rcases List.mem_append.mp hr with hold | hnew
    · exact ⟨(hb r hold).1, Nat.lt_succ_of_lt (hb r hold).2⟩
    · rcases List.mem_singleton.mp hnew with rfl
      rw [hid]
      exact ⟨h0, Nat.lt_succ_self _⟩

/-- Claim C2 (confirmed):  For two writes performed in sequence through
`saveLabel` (which `createLabel` and `createLabels` call for every label),
the assigned ids satisfy `id(W1) < id(W2)`, no two stored labels share an
id, and the full scan (`id > 0`, ascending) is exactly the previous
contents followed by the two new labels in write order — ids strictly
ascending throughout. -/
theorem c2_sequential_writes_monotonic {S : SigScheme} {env : DBEnv}
    {key : List Nat} {st st1 st2 : DBState} {l1 l2 : LabelInput}
    {e1 e2 : EmitRec} {r1 r2 : Row} (hInv : dbInv st)
    (h1 : saveLabel S env key st l1 = .ok (st1, e1, r1))
    (h2 : saveLabel S env key st1 l2 = .ok (st2, e2, r2)) :
    r1.id < r2.id ∧
    (st2.rows.map Row.id).Nodup ∧
    scanSem st2 0 = st.rows ++ [r1, r2] ∧
    st2.rows.Pairwise (fun a b => a.id < b.id) := by
  obtain ⟨hf1, hr1, he1, hst1⟩ := saveLabel_ok h1
  obtain ⟨hf2, hr2, he2, hst2⟩ := saveLabel_ok h2
  have hid1 : r1.id = st.nextId := by rw [hr1]; rfl
  have hid2 : r2.id = st1.nextId := by rw [hr2]; rfl
  have hInv1 : dbInv st1 := by rw [hst1]; exact dbInv_insert hInv hid1
  have hnext1 : st1.nextId = st.nextId + 1 := by rw [hst1]
  have hInv2 : dbInv st2 := by
    rw [hst2]
    exact dbInv_insert hInv1 hid2
  have hrows2 : st2.rows = st.rows ++ [r1, r2] := by
    rw [hst2, hst1]
    simp
  refine ⟨?_, ?_, ?_, hInv2.2.1⟩
  · rw [hid1, hid2, hnext1]
    exact Nat.lt_succ_self _
  · have hpair : (st2.rows.map Row.id).Pairwise (· < ·) :=
      List.pairwise_map.mpr hInv2.2.1
    exact hpair.imp fun h => Nat.ne_of_lt h
  · unfold scanSem
    rw [sortById_eq_self hInv2.2.1]
    rw [List.filter_eq_self.mpr ?_, hrows2]
    intro r hr
    simpa using (hInv2.2.2 r hr).1

/-- Claim C2 (witness): two sequential writes of `c2Input` into an empty
store, under the toy scheme. -/
theorem c2_sequential_writes_monotonic_witness :
    c2Row1.id < c2Row2.id ∧
    (c2St2.rows.map Row.id).Nodup ∧
    scanSem c2St2 0 = dbEmpty.rows ++ [c2Row1, c2Row2] ∧
    c2St2.rows.Pairwise (fun a b => a.id < b.id) :=
  c2_sequential_writes_monotonic (by simp [dbInv, dbEmpty])
    (show saveLabel toyScheme envOk [1] dbEmpty c2Input =
        .ok (⟨[c2Row1], 2⟩, ⟨1, toSignedLabel toyScheme [1] c2Input⟩, c2Row1) by decide)
    (show saveLabel toyScheme envOk [1] ⟨[c2Row1], 2⟩ c2Input =
        .ok (c2St2, ⟨2, toSignedLabel toyScheme [1] c2Input⟩, c2Row2) by decide)

/-- Claim C3 (code bug):  The claim — the query returns exactly the stored
labels satisfying the *conjunction* of the pattern disjunction, the source
filter and the cursor, for every combination including two or more patterns
together with a sources filter — is the clear intent (the newer
`queryLabelsHandler` parenthesizes the pattern `OR` and satisfies it), but
`findLabels` of `src/util/sqlite.ts` and the older `queryLabelsHandler`
interpolate `WHERE 1 = 1 AND L1 OR L2 AND src IN (…)` without parentheses:
`AND` binds tighter than `OR`, so a row matching the first of two patterns
is returned even when its `src` is outside `sources`.  Concretely, on a
store holding only `exRowAx` (uri `"ax"`, src `"s1"`), the unparenthesized
query with patterns `a%`,`b%` and sources `["s2"]` returns the row while
the conjunction semantics (and the parenthesized handler) exclude it; with
at most one pattern the two semantics agree. -/
theorem c3_unparenthesized_where_clause :
    findLabelsSem exStAx ["a%", "b%"] ["s2"] 0 50 = [exRowAx] ∧
    whereClauseSem exStAx ["a%", "b%"] ["s2"] 0 50 = [] ∧
    conjMatch ["a%", "b%"] ["s2"] 0 exRowAx = false ∧
    (∀ p ss c r, brokenMatch [p] ss c r = conjMatch [p] ss c r) ∧
    (∀ ss c r, brokenMatch [] ss c r = conjMatch [] ss c r) := by
  refine ⟨by decide, by decide, by decide, ?_, ?_⟩
  · intro p ss c r
    simp [brokenMatch, brokenOrChain, conjMatch]
  · intro ss c r
    simp [brokenMatch, brokenOrChain, conjMatch]

theorem createMany_cons {S : SigScheme} {env : DBEnv} {key : List Nat}
    {did now : String} {subj : LabelSubject} {st : DBState} {v : String}
    {n : Bool} {rest : List (String × Bool)} :
    createMany S env key did now subj st ((v, n) :: rest) =
      match createLabel S env key did now st
          { uri := subj.uri, cid := subj.cid, val := v,
            neg := if n then some true else none } with
      | .error () => (st, [], .error ())
      | .ok (st1, e, r) =>
        ((createMany S env key did now subj st1 rest).1,
         e :: (createMany S env key did now subj st1 rest).2.1,
         ((createMany S env key did now subj st1 rest).2.2).map (fun rs => r :: rs)) := by
  conv_lhs => rw [createMany]

theorem createLabel_draft_ok {S : SigScheme} {env : DBEnv} {key : List Nat}
    {did now : String} {subj : LabelSubject} {st : DBState} {v : String} {n : Bool}
    (h : env.failsAt st.nextId = false) :
    createLabel S env key did now st
        { uri := subj.uri, cid := subj.cid, val := v,
          neg := if n then some true else none } =
      .ok (⟨st.rows ++ [rowOfSigned st.nextId (expectedSigned S key did now subj (v, n))],
            st.nextId + 1⟩,
           ⟨st.nextId, expectedSigned S key did now subj (v, n)⟩,
           rowOfSigned st.nextId (expectedSigned S key did now subj (v, n))) := by
  unfold createLabel saveLabel
  simp [h, toSignedLabel, expectedSigned]

theorem createLabel_draft_err {S : SigScheme} {env : DBEnv} {key : List Nat}
    {did now : String} {subj : LabelSubject} {st : DBState} {v : String} {n : Bool}
    (h : env.failsAt st.nextId = true) :
    createLabel S env key did now st
        { uri := subj.uri, cid := subj.cid, val := v,
          neg := if n then some true else none } = .error () := by
  unfold createLabel saveLabel
  simp [h]

theorem createMany_all_ok {S : SigScheme} {env : DBEnv} {key : List Nat}
    {did now : String} {subj : LabelSubject} :
    ∀ (vals : List (String × Bool)) (st : DBState),
    (∀ j, j < vals.length → env.failsAt (st.nextId + j) = false) →
    createMany S env key did now subj st vals =
      (⟨st.rows ++ expectedRows S key did now subj st.nextId vals,
        st.nextId + vals.length⟩,
       expectedEmits S key did now subj st.nextId vals,
       .ok (expectedRows S key did now subj st.nextId vals)) := by
  intro vals
  induction vals with
  | nil =>
    intro st h
    cases st
    simp [createMany, expectedRows, expectedEmits]
  | cons vn rest ih =>
    intro st h
    obtain ⟨v, n⟩ := vn
    have h0 : env.failsAt st.nextId = false := by simpa using h 0 (Nat.succ_pos _)
    have hrest : ∀ j, j < rest.length →
        env.failsAt ((⟨st.rows ++ [rowOfSigned st.nextId
          (expectedSigned S key did now subj (v, n))], st.nextId + 1⟩ : DBState).nextId + j)
          = false := by
      intro j hj
      have := h (j + 1) (by simpa using Nat.succ_lt_succ hj)
      simpa [Nat.add_assoc, Nat.add_comm 1 j] using this
    rw [createMany_cons, createLabel_draft_ok h0]
    dsimp only
    rw [ih _ hrest]
    simp [expectedRows, expectedEmits, Except.map, List.append_assoc]
    omega

theorem createMany_fail_at {S : SigScheme} {env : DBEnv} {key : List Nat}
    {did now : String} {subj : LabelSubject} :
    ∀ (vals : List (String × Bool)) (st : DBState) (k : Nat),
    k < vals.length →
    (∀ j, j < k → env.failsAt (st.nextId + j) = false) →
    env.failsAt (st.nextId + k) = true →
    createMany S env key did now subj st vals =
      (⟨st.rows ++ expectedRows S key did now subj st.nextId (vals.take k),
        st.nextId + k⟩,
       expectedEmits S key did now subj st.nextId (vals.take k),
       .error ()) := by
  intro vals
  induction vals with
  | nil =>
    intro st k hk
    exact absurd hk (by simp)
  | cons vn rest ih =>
    intro st k hk hpre hfail
    obtain ⟨v, n⟩ := vn
    cases k with
    | zero =>
      have h0 : env.failsAt st.nextId = true := by simpa using hfail
      cases st
      rw [createMany_cons, createLabel_draft_err h0]
      simp [expectedRows, expectedEmits]
    | succ k =>
      have h0 : env.failsAt st.nextId = false := by
        simpa using hpre 0 (Nat.succ_pos _)
      have hpre1 : ∀ j, j < k →
          env.failsAt ((⟨st.rows ++ [rowOfSigned st.nextId
            (expectedSigned S key did now subj (v, n))], st.nextId + 1⟩ : DBState).nextId + j)
            = false := by
        intro j hj
        have := hpre (j + 1) (Nat.succ_lt_succ hj)
        simpa [Nat.add_assoc, Nat.add_comm 1 j] using this
      have hfail1 : env.failsAt ((⟨st.rows ++ [rowOfSigned st.nextId
          (expectedSigned S key did now subj (v, n))], st.nextId + 1⟩ : DBState).nextId + k)
          = true := by
        simpa [Nat.add_assoc, Nat.add_comm 1 k] using hfail
      rw [createMany_cons, createLabel_draft_ok h0]
      dsimp only
      rw [ih _ k (by simpa using Nat.lt_of_succ_lt_succ hk) hpre1 hfail1]
      simp [expectedRows, expectedEmits, Except.map, List.append_assoc]
      omega

/-- Claim C10 (confirmed):  `createLabels` is not atomic: it inserts one
label per value sequentially — every `create` value first, each stored
with `neg = false`, then every `negate` value, each with `neg = true`
(`createLabelsVals` / `expectedRows`).  If the insert of the k-th label
fails, the first k−1 labels remain stored and have already been emitted to
subscribers, no rollback occurs, and the error propagates to the caller;
when both lists are empty or absent the call returns an empty list and
leaves the store untouched; when no insert fails, all labels are stored
and emitted in order. -/
theorem c10_createLabels_sequential_no_rollback :
    (∀ (S : SigScheme) (env : DBEnv) (key : List Nat) (did now : String)
       (st : DBState) (subj : LabelSubject) (create negate : Option (List String))
       (k : Nat),
       k < (createLabelsVals create negate).length →
       (∀ j, j < k → env.failsAt (st.nextId + j) = false) →
       env.failsAt (st.nextId + k) = true →
       createLabels S env key did now st subj create negate =
         (⟨st.rows ++ expectedRows S key did now subj st.nextId
             ((createLabelsVals create negate).take k), st.nextId + k⟩,
          expectedEmits S key did now subj st.nextId
            ((createLabelsVals create negate).take k),
          .error ())) ∧
    (∀ (S : SigScheme) (env : DBEnv) (key : List Nat) (did now : String)
       (st : DBState) (subj : LabelSubject),
       createLabels S env key did now st subj none none = (st, [], .ok []) ∧
       createLabels S env key did now st subj (some []) (some []) =
         (st, [], .ok [])) ∧
    (∀ (S : SigScheme) (env : DBEnv) (key : List Nat) (did now : String)
       (st : DBState) (subj : LabelSubject) (create negate : Option (List String)),
       (∀ j, j < (createLabelsVals create negate).length →
         env.failsAt (st.nextId + j) = false) →
       createLabels S env key did now st subj create negate =
         (⟨st.rows ++ expectedRows S key did now subj st.nextId
             (createLabelsVals create negate),
           st.nextId + (createLabelsVals create negate).length⟩,
          expectedEmits S key did now subj st.nextId (createLabelsVals create negate),
          .ok (expectedRows S key did now subj st.nextId
            (createLabelsVals create negate)))) ∧
    (∀ (S : SigScheme) (key : List Nat) (did now : String) (subj : LabelSubject)
       (i : Nat) (vals : List (String × Bool)),
       (expectedRows S key did now subj i vals).map Row.neg = vals.map Prod.snd ∧
       (expectedRows S key did now subj i vals).map Row.val = vals.map Prod.fst) := by
  refine ⟨?_, ?_, ?_, ?_⟩
  · intro S env key did now st subj create negate k hk hpre hfail
    exact createMany_fail_at _ _ _ hk hpre hfail
  · intro S env key did now st subj
    constructor <;> rfl
  · intro S env key did now st subj create negate h
    exact createMany_all_ok _ _ h
  · intro S key did now subj i vals
    induction vals generalizing i with
    | nil => simp [expectedRows]
    | cons vn rest ih =>
      obtain ⟨v, n⟩ := vn
      obtain ⟨ihn, ihv⟩ := ih (i + 1)
      refine ⟨?_, ?_⟩
      · simp [expectedRows, rowOfSigned, expectedSigned, signLabel,
          formatLabelStruct, ihn]
        cases n <;> simp
      · simp [expectedRows, rowOfSigned, expectedSigned, signLabel,
          formatLabelStruct, ihv]

/-- Claim C10 (witness): toy scheme, empty store, `create = ["a","b"]`, the
second insert (rowid 2) failing: the first label is stored and emitted,
the error propagates. -/
theorem c10_createLabels_sequential_no_rollback_witness :
    createLabels toyScheme envFailAt2 [1] "did:plc:me" "now" dbEmpty
        { uri := "u:x" } (some ["a", "b"]) none =
      (⟨dbEmpty.rows ++ expectedRows toyScheme [1] "did:plc:me" "now" { uri := "u:x" }
          dbEmpty.nextId ((createLabelsVals (some ["a", "b"]) none).take 1),
        dbEmpty.nextId + 1⟩,
       expectedEmits toyScheme [1] "did:plc:me" "now" { uri := "u:x" }
         dbEmpty.nextId ((createLabelsVals (some ["a", "b"]) none).take 1),
       .error ()) :=
  c10_createLabels_sequential_no_rollback.1 toyScheme envFailAt2 [1] "did:plc:me"
    "now" dbEmpty { uri := "u:x" } (some ["a", "b"]) none 1 (by decide)
    (by decide) (by decide)

/-- Claim C5 (counterexample):  A subscriber connecting to an empty store
(`maxId = 0`) with cursor `1` receives exactly the framed `FutureCursor`
error and the socket is terminated — but, contrary to the claim's "never
registered in the live subscriber set", the handler falls through and
*does* register the socket (`registered = true`): there is no `return`
after `ws.terminate()`. -/
theorem c5_registered_after_future_cursor :
    subscribeLabelsHandler dbEmpty (some "1") =
      { frames := [futureCursorFrame], terminated := true, registered := true } := by
  decide

/-- Claim C5 (amended):  For every store and every cursor string parsing to an
integer strictly greater than the maximum stored id, the subscriber
receives exactly one framed `FutureCursor` error and no label messages, and
the connection is terminated — but the handler still falls through and adds
the terminated socket to the live subscriber set (it is removed again only
when the socket's close event fires). -/
theorem c5_future_cursor_outcome {st : DBState} {s : String} {c : Int}
    (hc : parseIntJS s = some c) (hfut : (maxId st : Int) < c) :
    subscribeLabelsHandler st (some s) =
      { frames := [futureCursorFrame], terminated := true, registered := true } := by
  unfold subscribeLabelsHandler
  rw [show (some s).getD "NaN" = s from rfl, hc]
  have hfilter : ((sortById st.rows).filter (fun r => decide ((r.id : Int) > c))) = [] := by
    rw [List.filter_eq_nil_iff]
    intro r hr
    have hmem : r ∈ st.rows := mem_sortById.mp hr
    have hle : ((r.id : Int)) ≤ (maxId st : Int) := by exact_mod_cast id_le_maxId hmem
    simp only [decide_eq_true_eq, gt_iff_lt, not_lt]
    omega
  simp [hfut, hfilter]

/-- Claim C5 (witness): spec scenario S4 — empty store, cursor 99. -/
theorem c5_future_cursor_outcome_witness :
    subscribeLabelsHandler dbEmpty (some "99") =
      { frames := [futureCursorFrame], terminated := true, registered := true } :=
  @c5_future_cursor_outcome dbEmpty "99" 99 (by decide) (by decide)

/-- Claim C6 (counterexample):  For a label without `neg` (e.g.
`exLabelNoNeg`), the signable form produced by `formatLabelCbor` contains
`neg` as the boolean `false` — it is *not* omitted, contrary to the claim's
"when neg is falsy it is omitted from the signable form" (`!!label.neg` is
`false`, which is not nullish, so `excludeNullish` keeps it). -/
theorem c6_falsy_neg_not_omitted :
    fieldLookup "neg" (formatLabelCbor exLabelNoNeg) = some (.boolv false) ∧
    fieldLookup "neg" (formatLabelCbor exLabelNoNeg) ≠ none := by
  decide

/-- Claim C6 (amended):  The signable form contains exactly the populated
non-signature fields: `ver` is always `1`; absent `cid` / `exp` are omitted
entirely (their key is not present, rather than bound to a null); `neg` is
always present and encoded as a boolean — `false` (not omitted) when the
label's `neg` is falsy; and no keys beyond the label fields occur. -/
theorem c6_signable_form_fields (l : UnsignedLabel) :
    fieldLookup "ver" (formatLabelCbor l) = some (.int 1) ∧
    fieldLookup "neg" (formatLabelCbor l) = some (.boolv (l.neg.getD false)) ∧
    fieldLookup "cid" (formatLabelCbor l) = l.cid.map .str ∧
    fieldLookup "exp" (formatLabelCbor l) = l.exp.map .str ∧
    fieldLookup "src" (formatLabelCbor l) = some (.str l.src) ∧
    fieldLookup "uri" (formatLabelCbor l) = some (.str l.uri) ∧
    fieldLookup "val" (formatLabelCbor l) = some (.str l.val) ∧
    fieldLookup "cts" (formatLabelCbor l) = some (.str l.cts) ∧
    (formatLabelCbor l).map Prod.fst ⊆
      ["src", "uri", "cid", "val", "cts", "exp", "ver", "neg"] := by
  cases hc : l.cid <;> cases he : l.exp <;>
    simp [formatLabelCbor, excludeNullish, fieldLookup, hc, he, List.subset_def]

/-- Claim C7 (code bug):  The claim — a multikey whose decoded bytes start
with `0xe7 0x01` is recognized as secp256k1, and the key bytes are those
after the 2-byte multicodec prefix — matches the declared constants
(`SECP256K1_DID_PREFIX`) and `verifyDidSig`, but `parseMultikey` tests
`P256_DID_PREFIX` in *both* branches of its curve dispatch, so a
`0xe7 0x01`-prefixed key is always rejected with
"Invalid curve for multikey"; and even a recognized P-256 key is sliced at
`keyCurve.length` (the length 4 of the string `"p256"`) instead of the
2-byte prefix, leaving 31 of the 35 bytes and failing the 33-byte
compressed-length check. -/
theorem c7_parseMultikey_never_secp256k1 :
    (∀ bs : List Nat,
      parseMultikeyBytes (0xe7 :: 0x01 :: bs) = .error "Invalid curve for multikey") ∧
    parseMultikeyBytes (0x80 :: 0x24 :: List.replicate 33 0) =
      .error "Incorrect compressed pubkey length" := by
  exact ⟨fun bs => rfl, by decide⟩

theorem formatLabelCbor_roundtrip {l : UnsignedLabel} (hc : l.cid ≠ some "")
    (he : l.exp ≠ some "") (i : Nat) (S : SigScheme) (key : List Nat) :
    formatLabelCbor (rowToUnsigned (rowOfSigned i (signLabel S key l))) =
      formatLabelCbor l := by
  simp [rowOfSigned, rowToUnsigned, signLabel, formatLabelStruct, formatLabelCbor,
    orNull_of_ne hc, orNull_of_ne he]

/-- Claim C1 (amended):  Every label that `saveLabel` signs itself — i.e.
stored without a caller-supplied `sig` (and whose optional `cid`/`exp` are
not the empty string, which the insert's `|| null` coercion would drop) —
carries a signature that verifies, over the deterministic encoding of the
label the endpoints rebuild from the stored row, under the public key
derived from the configured private key.  A caller-supplied `sig`, however,
is stored verbatim — neither re-signed nor verified.  The endpoints
(`queryLabels` filter/limit, `findLabels`, the subscription scan) return
only stored rows, so the round-trip guarantee extends exactly to the
server-signed part of the store. -/
theorem c1_signature_roundtrip :
    (∀ (S : SigScheme) (env : DBEnv) (key : List Nat) (st : DBState)
       (l : LabelInput) (st1 : DBState) (e : EmitRec) (r : Row),
       saveLabel S env key st l = .ok (st1, e, r) → l.sig = none →
       l.cid ≠ some "" → l.exp ≠ some "" →
       rowVerifies S key r = true) ∧
    (∀ (S : SigScheme) (env : DBEnv) (key : List Nat) (st : DBState)
       (l : LabelInput) (st1 : DBState) (e : EmitRec) (r : Row) (sg : List Nat),
       saveLabel S env key st l = .ok (st1, e, r) → l.sig = some sg →
       r.sig = sg) ∧
    (∀ st ps ss c lim r, r ∈ whereClauseSem st ps ss c lim → r ∈ st.rows) ∧
    (∀ st ps ss c lim r, r ∈ findLabelsSem st ps ss c lim → r ∈ st.rows) ∧
    (∀ st a r, r ∈ scanSem st a → r ∈ st.rows) := by
  refine ⟨?_, ?_, ?_, ?_, ?_⟩
  · intro S env key st l st1 e r h hsig hc he
    obtain ⟨-, hr, -, -⟩ := saveLabel_ok h
    subst hr
    simp only [rowVerifies, toSignedLabel, hsig]
    rw [formatLabelCbor_roundtrip hc he]
    simp [rowOfSigned, signLabel, S.correct]
  · intro S env key st l st1 e r sg h hsig
    obtain ⟨-, hr, -, -⟩ := saveLabel_ok h
    subst hr
    simp [rowOfSigned, toSignedLabel, hsig]
  · intro st ps ss c lim r hr
    unfold whereClauseSem at hr
    exact mem_sortById.mp (List.mem_filter.mp (List.mem_of_mem_take hr)).1
  · intro st ps ss c lim r hr
    unfold findLabelsSem at hr
    exact mem_sortById.mp (List.mem_filter.mp (List.mem_of_mem_take hr)).1
  · intro st a r hr
    unfold scanSem at hr
    exact mem_sortById.mp (List.mem_filter.mp hr).1

/-- Claim C1 (witness): a signature-less draft saved under the toy scheme
verifies. -/
theorem c1_signature_roundtrip_witness :
    rowVerifies toyScheme [1] (rowOfSigned 1 (toSignedLabel toyScheme [1] c2Input))
      = true :=
  c1_signature_roundtrip.1 toyScheme envOk [1] dbEmpty c2Input
    ⟨[rowOfSigned 1 (toSignedLabel toyScheme [1] c2Input)], 2⟩
    ⟨1, toSignedLabel toyScheme [1] c2Input⟩
    (rowOfSigned 1 (toSignedLabel toyScheme [1] c2Input))
    (by decide) (by decide) (by decide) (by decide)

/-- Claim C1 (counterexample):  The claim's universal signature round-trip
fails: `createLabel`/`saveLabel` accept a caller-supplied `sig` via
`toSignedLabel` without re-signing or verifying it, so a label stored with
the bogus signature `[9]` is returned verbatim by `queryLabels` and its
signature does not verify. -/
theorem c1_caller_supplied_sig_not_verified :
    saveLabel toyScheme envOk [1] dbEmpty c1BadInput =
      .ok (c1BadSt, ⟨1, toSignedLabel toyScheme [1] c1BadInput⟩, c1BadRow) ∧
    queryLabelsHandler c1BadSt [] [] none none = .ok ("1", [c1BadRow]) ∧
    rowVerifies toyScheme [1] c1BadRow = false := by
  decide

theorem likeMatch_percent_nil_pattern (ss : List Char) : likeMatch ['%'] ss = true := by
  have h : ss.tails.any (fun t => likeMatch [] t) = true :=
    List.any_eq_true.mpr ⟨[], (List.mem_tails _ _).mpr List.nil_suffix, rfl⟩
  have h2 : likeMatch ['%'] ss = ss.tails.any (fun t => likeMatch [] t) := by
    simp [likeMatch]
  rw [h2, h]

theorem likeMatch_trailing_percent :
    ∀ ps : List Char, (∀ c ∈ ps, c ≠ '%' ∧ c ≠ '_') →
    ∀ ss, likeMatch (ps ++ ['%']) ss =
      (ps.map Char.toLower).isPrefixOf (ss.map Char.toLower) := by
  intro ps
  induction ps with
  | nil =>
    intro _ ss
    simpa using likeMatch_percent_nil_pattern ss
  | cons p t ih =>
    intro hp ss
    have hpne := hp p (List.mem_cons_self _ _)
    have hrest : ∀ c ∈ t, c ≠ '%' ∧ c ≠ '_' :=
      fun c hcm => hp c (List.mem_cons_of_mem _ hcm)
    cases ss with
    | nil => simp [likeMatch, hpne.1, hpne.2, List.isPrefixOf]
    | cons c cs =>
      simp [likeMatch, hpne.1, hpne.2, List.isPrefixOf, ih hrest cs]

theorem escFold_eq_self :
    ∀ l : List Char, (∀ c ∈ l, c ≠ '%' ∧ c ≠ '_') →
    l.foldr (fun c acc =>
      if c = '%' then acc else if c = '_' then '\\' :: '_' :: acc else c :: acc) [] = l := by
  intro l
  induction l with
  | nil => intro _; rfl
  | cons a t ih =>
    intro h
    have ha := h a (List.mem_cons_self _ _)
    have ht : ∀ c ∈ t, c ≠ '%' ∧ c ≠ '_' :=
      fun c hcm => h c (List.mem_cons_of_mem _ hcm)
    simp [ha.1, ha.2, ih ht]

theorem escapePattern_eq_self {s : String}
    (h : ∀ c ∈ s.data, c ≠ '%' ∧ c ≠ '_') : escapePattern s = s := by
  unfold escapePattern
  exact String.ext (escFold_eq_self s.data h)

theorem findIdx?_append_star :
    ∀ (l : List Char) (i : Nat), (∀ c ∈ l, ¬c = '*') →
    List.findIdx? (fun c => c = '*') (l ++ ['*']) i = some (i + l.length) := by
  intro l
  induction l with
  | nil =>
    intro i _
    simp [List.findIdx?_cons]
  | cons a t ih =>
    intro i h
    have ha : ¬(a = '*') := h a (List.mem_cons_self _ _)
    have ht : ∀ c ∈ t, ¬c = '*' := fun c hcm => h c (List.mem_cons_of_mem _ hcm)
    have ha' : decide (a = '*') = false := by simpa using ha
    rw [List.cons_append, List.findIdx?_cons]
    simp only [ha', Bool.false_eq_true, if_false]
    rw [ih (i + 1) ht]
    congr 1
    simp only [List.length_cons]
    omega

/-- Claim C4 (counterexample):  Two parts of the claim fail on the code.
User-supplied `%` is *deleted* from the pattern (not matched literally): a
store whose only row has uri `"50%"` queried with the pattern `"50%"`
returns nothing, because the pattern is rewritten to `"50"`.  And a `*`
pattern anywhere in the list disables normalization entirely, so the
non-final wildcard in `"a*b"` is *not* rejected when `"*"` is also
supplied. -/
theorem c4_percent_not_literal :
    exRowPct.uri = "50%" ∧
    queryLabelsHandler exStPct ["50%"] [] none none = .ok ("0", []) ∧
    normalizePatterns ["*", "a*b"] = .ok [] := by
  decide

/-- Claim C4 (amended):  A pattern equal to `*` anywhere in the list disables
the whole pattern filter, skipping validation of the other patterns; a
pattern whose first `*` (after rewriting) is not in final position is
rejected with `InvalidRequest`; a trailing `*` on a wildcard-free pattern
yields a `LIKE` prefix match (case-insensitive prefix semantics); but `%`
and `_` are *not* matched literally: `%` is deleted from the pattern, and
`_` is rewritten to `\_` without an `ESCAPE` clause, which matches a
literal backslash followed by any one character — so `"a_c"` no longer
matches the uri `"a_c"` (it matches `"a\zc"`), and `"50%"` matches `"50"`
but not `"50%"`. -/
theorem c4_wildcard_policy :
    (∀ ups : List String, "*" ∈ ups → normalizePatterns ups = .ok []) ∧
    (∀ (p : String) (i : Nat),
       (escapePattern p).data.findIdx? (fun c => c = '*') = some i →
       i ≠ (escapePattern p).data.length - 1 →
       normalizeOne p = .error (.invalidRequest
         "Only trailing wildcards are supported in uriPatterns")) ∧
    (∀ q u : String, (∀ c ∈ q.data, c ≠ '%' ∧ c ≠ '_' ∧ c ≠ '*') →
       likeB (q ++ "%") u =
         ((q.data.map Char.toLower).isPrefixOf (u.data.map Char.toLower)) ∧
       normalizeOne (q ++ "*") = .ok (q ++ "%")) ∧
    (likeB (escapePattern "a_c") "a_c" = false ∧
     likeB (escapePattern "a_c") "a\\zc" = true ∧
     escapePattern "50%" = "50" ∧
     likeB (escapePattern "50%") "50%" = false ∧
     likeB (escapePattern "50%") "50" = true) := by
  refine ⟨?_, ?_, ?_, by decide⟩
  · intro ups h
    unfold normalizePatterns
    rw [if_pos (List.elem_eq_true_of_mem h)]
  · intro p i hfind hpos
    unfold normalizeOne
    rw [hfind]
    exact if_pos hpos
  · intro q u hq
    have hq2 : ∀ c ∈ q.data, c ≠ '%' ∧ c ≠ '_' := fun c hc => ⟨(hq c hc).1, (hq c hc).2.1⟩
    constructor
    · have hdata : (q ++ "%").data = q.data ++ ['%'] := by
        rw [String.data_append]
      unfold likeB
      rw [hdata]
      exact likeMatch_trailing_percent q.data hq2 u.data
    · have hstar : ∀ c ∈ (q ++ "*").data, c ≠ '%' ∧ c ≠ '_' := by
        rw [String.data_append]
        intro c hc
        rcases List.mem_append.mp hc with hcq | hcs
        · exact hq2 c hcq
        · rcases List.mem_singleton.mp (by simpa using hcs) with rfl
          refine ⟨by decide, by decide⟩
      have hdata : (q ++ "*").data = q.data ++ ['*'] := by
        rw [String.data_append]
      unfold normalizeOne
      rw [escapePattern_eq_self hstar, hdata,
        findIdx?_append_star q.data 0 (fun c hc => (hq c hc).2.2)]
      dsimp only
      rw [if_neg (by simp), List.dropLast_concat]
      exact congrArg Except.ok (String.ext (by simp [String.data_append]))

/-- Claim C4 (witness): spec scenario S3 — the pattern `did:plc:bb*` becomes
a prefix match recognizing `did:plc:bbb`. -/
theorem c4_wildcard_policy_witness :
    likeB ("did:plc:bb" ++ "%") "did:plc:bbb" =
      (("did:plc:bb".data.map Char.toLower).isPrefixOf
        ("did:plc:bbb".data.map Char.toLower)) ∧
    normalizeOne ("did:plc:bb" ++ "*") = .ok ("did:plc:bb" ++ "%") :=
  c4_wildcard_policy.2.2.1 "did:plc:bb" "did:plc:bbb" (by decide)

/-- Claim C8 (confirmed):  For every JWT passing the structural, expiry,
audience and lexicon-method checks, with both resolutions succeeding
(`k1` cached, `k2` after forced refresh): when verification against `k1`
*returns* false the key is re-resolved with a forced refresh (and only
then); a second verification is attempted exactly once, and only when the
refreshed key differs from the first; `verifyJwt` returns the payload if
and only if one of the at most two verifications succeeds, and otherwise
fails with `BadJwtSignature` (including when a verification throws). -/
theorem c8_jwt_signature_retry (resolve : Bool → Except Unit String)
    (verifySig : String → Except Unit Bool) (now : Int)
    (ownDid lxm : Option String) (jwt : JwtInput) (p : JwtPayload) (k1 k2 : String)
    (hparts : jwt.numParts = 3) (hpayload : jwt.payload = some p)
    (hexp : ¬now > p.exp) (haud : audBad ownDid p = false)
    (hlxm : lxmBad lxm p = false)
    (hres1 : resolve false = .ok k1) (hres2 : resolve true = .ok k2) :
    ((verifyJwt resolve verifySig now ownDid lxm jwt).result = .ok p ↔
      (verifySig k1 = .ok true ∨
        (verifySig k1 = .ok false ∧ k2 ≠ k1 ∧ verifySig k2 = .ok true))) ∧
    ((verifyJwt resolve verifySig now ownDid lxm jwt).result ≠ .ok p →
      (verifyJwt resolve verifySig now ownDid lxm jwt).result =
        .error .badJwtSignature) ∧
    ((verifyJwt resolve verifySig now ownDid lxm jwt).resolveCalls.contains true
        = true ↔ verifySig k1 = .ok false) ∧
    ((verifyJwt resolve verifySig now ownDid lxm jwt).verifyCalls = [k1] ∨
      (verifyJwt resolve verifySig now ownDid lxm jwt).verifyCalls = [k1, k2]) ∧
    ((verifyJwt resolve verifySig now ownDid lxm jwt).verifyCalls = [k1, k2] ↔
      (verifySig k1 = .ok false ∧ k2 ≠ k1)) := by
  unfold verifyJwt
  rw [hpayload]
  rcases hv1 : verifySig k1 with u1 | b1
  · simp [hparts, hexp, haud, hlxm, hres1, hv1]
  · cases b1
    · by_cases hk : k2 = k1
      · subst hk
        simp [hparts, hexp, haud, hlxm, hres1, hres2, hv1]
      · rcases hv2 : verifySig k2 with u2 | b2
        · simp [hparts, hexp, haud, hlxm, hres1, hres2, hv1, hv2, hk]
        · cases b2 <;>
            simp [hparts, hexp, haud, hlxm, hres1, hres2, hv1, hv2, hk]
    · simp [hparts, hexp, haud, hlxm, hres1, hv1]

/-- Claim C8 (witness): key rotation — the cached key `"k1"` fails
verification, the forced refresh returns `"k2"` which verifies, and the
payload is returned. -/
theorem c8_jwt_signature_retry_witness :
    (verifyJwt c8Resolve c8Verify 50 (some "did:plc:me")
        (some "tools.ozone.moderation.emitEvent") c8Jwt).result = .ok c8Payload ∧
    (verifyJwt c8Resolve c8Verify 50 (some "did:plc:me")
        (some "tools.ozone.moderation.emitEvent") c8Jwt).verifyCalls
      = ["k1", "k2"] := by
  have h := c8_jwt_signature_retry c8Resolve c8Verify 50 (some "did:plc:me")
    (some "tools.ozone.moderation.emitEvent") c8Jwt c8Payload "k1" "k2"
    rfl rfl (by decide) (by decide) (by decide) rfl rfl
  exact ⟨h.1.mpr (.inr ⟨rfl, by decide, rfl⟩), h.2.2.2.2.mpr ⟨rfl, by decide⟩⟩

/-- Claim C9 (counterexample):  A request with `cursor = "2.7"` and
`limit = "1.5"` — neither an integer — is *not* rejected: JavaScript
`parseInt` truncates both to their leading integer digits (`2` and `1`)
and the query succeeds, contradicting the claim that any non-integer
limit or cursor is rejected with `InvalidRequest`. -/
theorem c9_noninteger_params_accepted :
    queryLabelsHandler dbEmpty [] [] (some "2.7") (some "1.5") =
      .ok ("0", []) := by
  decide

/-- Claim C9 (amended):  An absent `limit` defaults to 50 and an absent
`cursor` to 0 (the handler behaves exactly as with `"50"` / `"0"`); every
accepted limit lies in `[1, 250]`; a `cursor` (resp. `limit`) string with
no leading integer prefix — `parseInt` returns `NaN` — is rejected with
`InvalidRequest`, as is a parsed limit outside `[1, 250]`; but a string
with a leading integer prefix such as `"1.5"` is truncated by `parseInt`
and accepted rather than rejected. -/
theorem c9_limit_cursor_parsing :
    (∀ st ups ss, queryLabelsHandler st ups ss none none =
       queryLabelsHandler st ups ss (some "0") (some "50")) ∧
    (∀ st ups ss lq (cs : String), parseIntJS cs = none → cs ≠ "" →
       queryLabelsHandler st ups ss (some cs) lq =
         .error (.invalidRequest "Cursor must be an integer")) ∧
    (∀ st ups ss cq (ls : String) (c : Int),
       parseIntJS (strOrDefault cq "0") = some c →
       parseIntJS ls = none → ls ≠ "" →
       queryLabelsHandler st ups ss cq (some ls) =
         .error (.invalidRequest "Limit must be an integer between 1 and 250")) ∧
    (∀ st ups ss cq (ls : String) (c l : Int),
       parseIntJS (strOrDefault cq "0") = some c →
       parseIntJS ls = some l → ls ≠ "" → (l < 1 ∨ l > 250) →
       queryLabelsHandler st ups ss cq (some ls) =
         .error (.invalidRequest "Limit must be an integer between 1 and 250")) ∧
    (∀ st ups ss cq lq c l rows cur,
       queryLabelsHandler st ups ss cq lq = .ok (cur, rows) →
       parseIntJS (strOrDefault cq "0") = some c →
       parseIntJS (strOrDefault lq "50") = some l →
       1 ≤ l ∧ l ≤ 250 ∧ rows.length ≤ l.toNat) := by
  refine ⟨?_, ?_, ?_, ?_, ?_⟩
  · intro st ups ss
    rfl
  · intro st ups ss lq cs hcs hne
    unfold queryLabelsHandler
    rw [show strOrDefault (some cs) "0" = cs from by simp [strOrDefault, hne], hcs]
  · intro st ups ss cq ls c hc hls hne
    unfold queryLabelsHandler
    rw [hc, show strOrDefault (some ls) "50" = ls from by simp [strOrDefault, hne], hls]
  · intro st ups ss cq ls c l hc hl hne hout
    unfold queryLabelsHandler
    rw [hc, show strOrDefault (some ls) "50" = ls from by simp [strOrDefault, hne], hl]
    dsimp only
    have hcond : (decide (l < 1) || decide (l > 250)) = true := by
      rcases hout with h | h <;> simp [h]
    rw [if_pos hcond]
  · intro st ups ss cq lq c l rows cur h hc hl
    unfold queryLabelsHandler at h
    rw [hc, hl] at h
    dsimp only at h
    by_cases hrange : (decide (l < 1) || decide (l > 250)) = true
    · rw [if_pos hrange] at h
      cases h
    · rw [if_neg hrange] at h
      simp only [Bool.or_eq_true, not_or, decide_eq_true_eq] at hrange
      refine ⟨by omega, by omega, ?_⟩
      rcases hnorm : normalizePatterns ups with e | patterns
      · rw [hnorm] at h
        cases h
      · rw [hnorm] at h
        simp only [Except.map, Except.ok.injEq] at h
        have hrows : rows = whereClauseSem st patterns ss c l.toNat := by
          have h2 := congrArg Prod.snd h
          simpa using h2.symm
        rw [hrows]
        unfold whereClauseSem
        exact List.length_take_le _ _

/-- Claim C9 (witness): defaults and rejections at concrete inputs — an
absent limit and cursor behave as `"50"` and `"0"`; `cursor = "abc"` and
`limit = "300"` are rejected. -/
theorem c9_limit_cursor_parsing_witness :
    queryLabelsHandler dbEmpty [] [] none none =
      queryLabelsHandler dbEmpty [] [] (some "0") (some "50") ∧
    queryLabelsHandler dbEmpty [] [] (some "abc") none =
      .error (.invalidRequest "Cursor must be an integer") ∧
    queryLabelsHandler dbEmpty [] [] none (some "xyz") =
      .error (.invalidRequest "Limit must be an integer between 1 and 250") ∧
    queryLabelsHandler dbEmpty [] [] none (some "300") =
      .error (.invalidRequest "Limit must be an integer between 1 and 250") :=
  ⟨c9_limit_cursor_parsing.1 dbEmpty [] [],
   c9_limit_cursor_parsing.2.1 dbEmpty [] [] none "abc" (by decide) (by decide),
   c9_limit_cursor_parsing.2.2.1 dbEmpty [] [] none "xyz" 0 (by decide) (by decide)
     (by decide),
   c9_limit_cursor_parsing.2.2.2.1 dbEmpty [] [] none "300" 0 300 (by decide)
     (by decide) (by decide) (by decide)⟩

end Skyware
